import Mathlib

/-!
Verification of the K8sQuest Mission Progression and Validation Engine
(`engine.py`) against its natural-language specification. The Python code is
shallowly embedded: the JSON progress dict becomes the `PlayerProgress`
structure, the interactive `play_level` loop becomes a recursive function over
the list of player inputs, external process results (the validation script's
exit code, the state file's readability) become explicit parameters, and
`sys.exit` / exception control flow becomes explicit result constructors.
-/

/-- The player progress record, the dict persisted in `progress.json`
(see `load_progress`, engine.py lines 83-89). -/
structure PlayerProgress where
  total_xp : Nat
  completed_levels : List String
  current_world : String
  current_level : Option String
  player_name : String
deriving DecidableEq

/-- The default record returned by `load_progress` when no progress file
exists (engine.py lines 83-89). -/
def default_progress : PlayerProgress :=
  { total_xp := 0
    completed_levels := []
    current_world := "world-1-basics"
    current_level := none
    player_name := "Padawan" }

/-- A progress dict as parsed from an existing `progress.json`: the
`current_level` key may be missing (`none` at the outer option), in which case
`load_progress` inserts `None` (engine.py lines 79-81). -/
structure RawProgress where
  total_xp : Nat
  completed_levels : List String
  current_world : String
  current_level : Option (Option String)
  player_name : String

/-- Outcome of opening and JSON-parsing the progress file, the input boundary
of `load_progress` (engine.py lines 76-78): the file is absent, or it is
present and `json.load` succeeds, or it is present but unreadable or corrupt,
in which case `json.load` (or `open`) raises. -/
inductive FileState where
  | absent
  | readable (r : RawProgress)
  | unreadable

/-- The exception that escapes `load_progress` on a corrupt file:
`json.load` raises `json.JSONDecodeError` and no handler catches it. -/
inductive LoadError where
  | jsonDecode
deriving DecidableEq

/-- `K8sQuest.load_progress` (engine.py lines 74-89). There is no try/except:
a present-but-corrupt file propagates the parse exception (`Except.error`);
a missing file yields the default record; a parsed record gets
`current_level` defaulted to `None` when the key is absent. -/
def load_progress : FileState → Except LoadError PlayerProgress
  | FileState.absent => Except.ok default_progress
  | FileState.readable r =>
      Except.ok
        { total_xp := r.total_xp
          completed_levels := r.completed_levels
          current_world := r.current_world
          current_level := r.current_level.getD none
          player_name := r.player_name }
  | FileState.unreadable => Except.error LoadError.jsonDecode

/-- The list of hint tier numbers whose `hint-i.txt` file exists, for
i = 1, 2, 3 (engine.py lines 216-221, `hints_available`). -/
def hints_available (h1 h2 h3 : Bool) : List Nat :=
  (if h1 then [1] else []) ++ (if h2 then [2] else []) ++ (if h3 then [3] else [])

/-- What `show_progressive_hints` displays when called with `show_all=False`
(engine.py lines 208-281). -/
inductive HintDisplay where
  | noHints
  | hintText (i : Nat)
  | allUnlocked
deriving DecidableEq

/-- Display outcome of `K8sQuest.show_progressive_hints(level_path,
hint_level, show_all=False)` (engine.py lines 208-281): with no authored
hints, "No hints available"; with `hint_level` within the available range, the
newest unlocked hint (element `hint_level - 1` of `hints_available`);
otherwise the terminal "All hints have been unlocked!" message. The function
also returns `min(hint_level, len(hints_available))`, which the caller in
`play_level` discards. -/
def show_progressive_hints (hints : List Nat) (hint_level : Nat) : HintDisplay :=
  if hints.length = 0 then HintDisplay.noHints
  else if hint_level ≤ hints.length then HintDisplay.hintText (hints.getD (hint_level - 1) 0)
  else HintDisplay.allUnlocked

/-- The `hints` action in `play_level` (engine.py lines 778-787): the session
hint counter is incremented unconditionally (`current_hint_level += 1`) and
the newly reached level is displayed via `show_progressive_hints`. Returns
the new counter value and the display. -/
def request_hint (hints : List Nat) (tier : Nat) : Nat × HintDisplay :=
  (tier + 1, show_progressive_hints hints (tier + 1))

/-- `K8sQuest.validate_mission` (engine.py lines 623-661): runs the level's
`validate.sh` and reports success exactly when the exit code is 0. -/
def validate_mission (exitCode : Nat) : Bool :=
  exitCode == 0

/-- The success branch of the `validate` action in `play_level` (engine.py
lines 804-821): the mission XP is added to `total_xp` unconditionally (both
the retro and the standard UI branch do this), and the level name is appended
to `completed_levels` only if not already present. -/
def award_on_pass (p : PlayerProgress) (level_name : String) (xp : Nat) : PlayerProgress :=
  let p1 : PlayerProgress := { p with total_xp := p.total_xp + xp }
  if level_name ∈ p1.completed_levels then p1
  else { p1 with completed_levels := p1.completed_levels ++ [level_name] }

/-- The milestone check after a successful validation (engine.py lines
829-839, retro UI enabled): celebrations keyed solely on the
post-completion `len(completed_levels)`. -/
def milestone_events (completed_count : Nat) : List String :=
  if completed_count = 10 then ["world_complete"]
  else if completed_count = 25 then ["halfway"]
  else if completed_count = 49 then ["final_boss"]
  else if completed_count = 50 then ["game_complete"]
  else []

/-- One player input to the `play_level` interactive loop (engine.py lines
755-767), together with the data the environment or the player supplies at
that point: the validation script's exit code and the answers to the
"Ready for the next challenge?" / "Try again?" confirmations, and the
skip confirmation. -/
inductive PInput where
  | check
  | guide
  | hints
  | solution
  | validate (exitCode : Nat) (tryAgain : Bool) (readyNext : Bool)
  | skip (confirmed : Bool)
  | quit
deriving DecidableEq

/-- How a level session resolved (the spec's `Resolved` states; `Quit` is the
separate `LoopResult.exited` constructor because the code calls
`sys.exit(0)`). -/
inductive Resolution where
  | passed
  | failedStop
  | skipped
deriving DecidableEq

/-- The mutable state of one `play_level` session: the hint tier
(`current_hint_level`), the attempt counter, the in-memory progress record
`self.progress`, the last record written to `progress.json`, and the
milestone celebrations fired so far. -/
structure LoopState where
  tier : Nat
  attempts : Nat
  p : PlayerProgress
  persisted : PlayerProgress
  events : List String
deriving DecidableEq

/-- Result of running `play_level`'s loop on a finite list of inputs:
`ret` models a `return` (with the resolution and the returned boolean),
`exited` models `sys.exit(code)`, and `pending` means the input list was
exhausted while the loop was still interacting. -/
inductive LoopResult where
  | ret (res : Resolution) (cont : Bool) (s : LoopState)
  | exited (code : Nat) (s : LoopState)
  | pending (s : LoopState)
deriving DecidableEq

/-- The session state carried by any loop result. -/
def LoopResult.stateOf : LoopResult → LoopState
  | LoopResult.ret _ _ s => s
  | LoopResult.exited _ s => s
  | LoopResult.pending s => s

/-- The hint tier carried by any loop result. -/
def LoopResult.tierOf (r : LoopResult) : Nat :=
  r.stateOf.tier

/-- Session state at the top of `play_level`'s loop: hint tier 0, zero
attempts (engine.py lines 726-729); the persisted record is the one
`play_world` saved just before calling `play_level`. -/
def init_session (p : PlayerProgress) : LoopState :=
  { tier := 0, attempts := 0, p := p, persisted := p, events := [] }

/-- The interactive loop of `K8sQuest.play_level` (engine.py lines 730-874),
with the display-only actions kept as state-preserving steps:
`check`/`guide`/`solution` change nothing; `hints` bumps the tier by one via
`request_hint`; `validate` increments the attempt counter, and on exit code 0
awards XP, appends the level if absent, persists, and fires milestone
celebrations before returning the answer to "Ready for the next challenge?",
while on a non-zero exit code it sets the tier to `min(tier+1, 3)` and either
keeps looping ("Try again?" answered yes) or returns False; `skip` returns
True when confirmed; `quit` calls `sys.exit(0)`. -/
def play_level_loop (level_name : String) (xp : Nat) (hints : List Nat) :
    List PInput → LoopState → LoopResult
  | [], s => LoopResult.pending s
  | i :: rest, s =>
    match i with
    | PInput.check => play_level_loop level_name xp hints rest s
    | PInput.guide => play_level_loop level_name xp hints rest s
    | PInput.solution => play_level_loop level_name xp hints rest s
    | PInput.hints =>
        play_level_loop level_name xp hints rest
          { s with tier := (request_hint hints s.tier).fst }
    | PInput.validate exitCode tryAgain readyNext =>
        let s1 : LoopState := { s with attempts := s.attempts + 1 }
        if validate_mission exitCode then
          let p1 := award_on_pass s1.p level_name xp
          LoopResult.ret Resolution.passed readyNext
            { s1 with
                p := p1
                persisted := p1
                events := s1.events ++ milestone_events p1.completed_levels.length }
        else
          let s2 : LoopState := { s1 with tier := min (s1.tier + 1) 3 }
          if tryAgain then play_level_loop level_name xp hints rest s2
          else LoopResult.ret Resolution.failedStop false s2
    | PInput.skip confirmed =>
        if confirmed then LoopResult.ret Resolution.skipped true s
        else play_level_loop level_name xp hints rest s
    | PInput.quit => LoopResult.exited 0 s

/-- The milestone celebrations fired by a single successful validation of
`lvl` started from progress `p` at the top of a session. -/
def pass_events (p : PlayerProgress) (lvl : String) (xp : Nat) : List String :=
  (play_level_loop lvl xp [] [PInput.validate 0 true true] (init_session p)).stateOf.events

/-- A failed validation attempt after which the player agrees to try again. -/
def fail_validate : PInput :=
  PInput.validate 1 true true

/-- The session hint tier after `n` consecutive failed validation attempts,
starting a fresh session with tier 0. -/
def tier_after_failures (n : Nat) : Nat :=
  (play_level_loop ("level-1-pods") 100 [1] (List.replicate n fail_validate)
    (init_session default_progress)).tierOf

/-- The resume-index scan of `K8sQuest.play_world` (engine.py lines
1024-1036): walk the naturally-ordered level list with an index; at the first
level equal to the stored `current_level`, return the next index if that
level is already completed and this index otherwise; if no level matches,
the start index stays 0. -/
def resume_index_aux (cur : String) (completed : List String) :
    List String → Nat → Nat
  | [], _ => 0
  | l :: ls, i =>
      if l = cur then (if cur ∈ completed then i + 1 else i)
      else resume_index_aux cur completed ls (i + 1)

/-- The resume index computed by `K8sQuest.play_world` (engine.py lines
1022-1036): 0 when no `current_level` is stored, else the scan above. -/
def resume_start_index (levels : List String) (current_level : Option String)
    (completed : List String) : Nat :=
  match current_level with
  | none => 0
  | some cur => resume_index_aux cur completed levels 0

/-- Result of `K8sQuest.play_world` (engine.py lines 1002-1066): the world
ran to completion (returns True), a session returned False (player stopped),
the process exited via `sys.exit` inside a session, or the supplied player
input ran out mid-session. Carries the final in-memory and persisted
records. -/
inductive WorldResult where
  | completedWorld (p persisted : PlayerProgress)
  | stopped (p persisted : PlayerProgress)
  | exitedGame (code : Nat) (p persisted : PlayerProgress)
  | stuck (p persisted : PlayerProgress)
deriving DecidableEq

/-- The level-driving loop of `K8sQuest.play_world` (engine.py lines
1039-1048): before each session, set `current_level`/`current_world` on the
progress record and save it; then run the session on that level's input
script; a `sys.exit` propagates, a False return stops the world, a True
return advances to the next level. -/
def play_world_from (world : String) (xp_of : String → Nat)
    (hints_of : String → List Nat) :
    List String → List (List PInput) → PlayerProgress → PlayerProgress → WorldResult
  | [], _, p, pers => WorldResult.completedWorld p pers
  | lvl :: rest, scripts, p, _pers =>
      let p1 : PlayerProgress :=
        { p with current_level := some lvl, current_world := world }
      match play_level_loop lvl (xp_of lvl) (hints_of lvl) (scripts.headD [])
          (init_session p1) with
      | LoopResult.exited code s => WorldResult.exitedGame code s.p s.persisted
      | LoopResult.ret _ true s =>
          play_world_from world xp_of hints_of rest scripts.tail s.p s.persisted
      | LoopResult.ret _ false s => WorldResult.stopped s.p s.persisted
      | LoopResult.pending s => WorldResult.stuck s.p s.persisted

/-- `K8sQuest.play_world` (engine.py lines 1002-1066): compute the resume
index from the stored progress, then play the remaining levels in order. -/
def play_world (world : String) (xp_of : String → Nat)
    (hints_of : String → List Nat) (levels : List String)
    (scripts : List (List PInput)) (p pers : PlayerProgress) : WorldResult :=
  play_world_from world xp_of hints_of
    (levels.drop (resume_start_index levels p.current_level p.completed_levels))
    scripts p pers

/-- Observable effects of the process around the `__main__` guard: progress
saves, console prints, and `sys.exit`. -/
inductive Effect where
  | save (p : PlayerProgress)
  | print (s : String)
  | exitProc (code : Nat)
deriving DecidableEq

/-- Whether an effect is a progress save. -/
def Effect.isSave : Effect → Bool
  | Effect.save _ => true
  | _ => false

/-- The `except KeyboardInterrupt` handler of the `__main__` guard
(engine.py lines 1162-1167): it prints a farewell message and calls
`sys.exit(0)`; it performs no save. -/
def interrupt_handler_effects : List Effect :=
  [Effect.print ("Game interrupted. Progress saved!"), Effect.exitProc 0]

/-- A process run in which `KeyboardInterrupt` is delivered after `main()`
has produced the effects `tr`: the remaining effects are exactly those of the
interrupt handler. -/
def interrupted_run (tr : List Effect) : List Effect :=
  tr ++ interrupt_handler_effects

/-- The "Start from the beginning" branch of `main` (engine.py lines
1140-1144): clear `current_level`, `completed_levels` and `total_xp`;
the other fields are untouched. -/
def reset_progress (p : PlayerProgress) : PlayerProgress :=
  { p with current_level := none, completed_levels := [], total_xp := 0 }

/-- The same branch including the immediate `save_progress()` call: returns
the new in-memory record and the newly persisted record. -/
def reset_and_save (p : PlayerProgress) : PlayerProgress × PlayerProgress :=
  (reset_progress p, reset_progress p)

/-- A concrete progress record appearing in the C1 counterexample: the level
`level-1-pods` is already completed and 100 XP are banked. -/
def replay_progress : PlayerProgress :=
  { total_xp := 100
    completed_levels := ["level-1-pods"]
    current_world := "world-1-basics"
    current_level := some ("level-1-pods")
    player_name := "Padawan" }

/-- A concrete record with nine completed levels, used for the milestone
counterexample. -/
def nine_done : PlayerProgress :=
  { total_xp := 0
    completed_levels := ["l1", "l2", "l3", "l4", "l5", "l6", "l7", "l8", "l9"]
    current_world := "world-1-basics"
    current_level := none
    player_name := "Padawan" }

/-- A naturally-ordered ten-level world, used for the resume witness. -/
def levels_ten : List String :=
  ["level-1", "level-2", "level-3", "level-4", "level-5", "level-6", "level-7",
   "level-8", "level-9", "level-10"]

/-- The in-memory (and persisted) record at the moment of quitting the first
level of a fresh campaign. -/
def quit_session_progress : PlayerProgress :=
  { total_xp := 0
    completed_levels := []
    current_world := "world-1-basics"
    current_level := some ("level-1-pods")
    player_name := "Padawan" }

/-! ## Theorems -/

/-- C1 counterexample: re-completing `level-1-pods`, which is already in
`completedLevels`, raises `totalXp` from 100 to 150 — the claim that
`totalXp` is left unchanged is false: the code adds the XP reward before the
membership check, which guards only the `completedLevels` append. -/
theorem c1_counterexample :
    (award_on_pass replay_progress ("level-1-pods") 50).total_xp = 150 ∧
    (150 : Nat) ≠ replay_progress.total_xp := by
  constructor
  · rfl
  · decide

/-- C1 amended: resolving a level as Passed always adds the level's XP reward
to `totalXp`, even when the level is already a member of `completedLevels`;
only the `completedLevels` append is membership-guarded, so the completed
list itself is unchanged on a re-completion. -/
theorem c1_award_adds_xp_even_if_completed (p : PlayerProgress)
    (lvl : String) (xp : Nat) (h : lvl ∈ p.completed_levels) :
    (award_on_pass p lvl xp).total_xp = p.total_xp + xp ∧
    (award_on_pass p lvl xp).completed_levels = p.completed_levels := by
  simp [award_on_pass, h]

/-- C1 witness: the amended theorem evaluated on the concrete replay
scenario. -/
theorem c1_witness :
    (award_on_pass replay_progress ("level-1-pods") 50).total_xp =
      replay_progress.total_xp + 50 ∧
    (award_on_pass replay_progress ("level-1-pods") 50).completed_levels =
      replay_progress.completed_levels :=
  c1_award_adds_xp_even_if_completed replay_progress ("level-1-pods") 50 (by decide)

/-- C3 counterexample: a present-but-corrupt progress file makes
`load_progress` propagate the JSON decode exception instead of returning the
default record — loading is not "never fatal". -/
theorem c3_counterexample :
    load_progress FileState.unreadable = Except.error LoadError.jsonDecode ∧
    load_progress FileState.unreadable ≠ Except.ok default_progress := by
  constructor
  · rfl
  · intro h
    exact Except.noConfusion h

/-- C3 amended: a missing progress file yields the default record, and a
readable file yields the parsed record with `current_level` defaulted, but a
present-but-unreadable/corrupt file raises the parse error (there is no
try/except in `load_progress`), so a corrupt file is fatal to the engine. -/
theorem c3_load_progress_behaviour :
    load_progress FileState.absent = Except.ok default_progress ∧
    (∀ r : RawProgress, ∃ p : PlayerProgress,
        load_progress (FileState.readable r) = Except.ok p ∧
        p.total_xp = r.total_xp ∧
        p.completed_levels = r.completed_levels ∧
        p.current_level = r.current_level.getD none) ∧
    load_progress FileState.unreadable = Except.error LoadError.jsonDecode := by
  refine ⟨rfl, ?_, rfl⟩
  intro r
  exact ⟨_, rfl, rfl, rfl, rfl⟩

/-- C10: the explicit reset path sets `totalXp` to 0, `completedLevels` to
empty and `currentLevel` to unset, leaves `playerName` and `currentWorld`
unchanged, touches no other field, and immediately persists exactly the
reset record. -/
theorem c10_reset_frame (p : PlayerProgress) :
    (reset_and_save p).fst.total_xp = 0 ∧
    (reset_and_save p).fst.completed_levels = [] ∧
    (reset_and_save p).fst.current_level = none ∧
    (reset_and_save p).fst.player_name = p.player_name ∧
    (reset_and_save p).fst.current_world = p.current_world ∧
    (reset_and_save p).snd = (reset_and_save p).fst := by
  refine ⟨rfl, rfl, rfl, rfl, rfl, rfl⟩

/-- Helper: the hint tier after `n` consecutive failed validation attempts
(each answered "try again") from an arbitrary session state: unchanged for
`n = 0`, otherwise `min (tier + n) 3`, since each failure performs
`tier := min (tier + 1) 3` (engine.py line 850). -/
theorem loop_fail_tier (lvl : String) (xp : Nat) (hints : List Nat) :
    ∀ (n : Nat) (s : LoopState),
      (play_level_loop lvl xp hints (List.replicate n fail_validate) s).tierOf =
        if n = 0 then s.tier else min (s.tier + n) 3 := by
  intro n
  induction n with
  | zero => intro s; rfl
  | succ m ih =>
      intro s
      rw [List.replicate_succ]
      have hstep : play_level_loop lvl xp hints
          (fail_validate :: List.replicate m fail_validate) s =
          play_level_loop lvl xp hints (List.replicate m fail_validate)
            { s with attempts := s.attempts + 1, tier := min (s.tier + 1) 3 } := rfl
      rw [hstep, ih]
      dsimp only
      rcases m with _ | k
      · simp
      · simp only [Nat.succ_ne_zero, if_false]
        omega

/-- Helper: closed form of `tier_after_failures`. -/
theorem tier_after_failures_eq (n : Nat) : tier_after_failures n = min n 3 := by
  unfold tier_after_failures
  rw [loop_fail_tier]
  split_ifs with h
  · simp [h, init_session]
  · simp [init_session]

/-- C2 counterexample: after four explicit hint requests the session tier is
4, and a subsequent failed validation attempt clamps it to 3 — the tier is
not monotonically non-decreasing under every action sequence; moreover on a
level with exactly one authored hint, two failed attempts drive the tier to
2, exceeding min(authored hints, 3) = 1. -/
theorem c2_counterexample :
    (play_level_loop ("level-1-pods") 100 [1, 2, 3]
        [PInput.hints, PInput.hints, PInput.hints, PInput.hints]
        (init_session default_progress)).tierOf = 4 ∧
    (play_level_loop ("level-1-pods") 100 [1, 2, 3]
        [PInput.hints, PInput.hints, PInput.hints, PInput.hints, fail_validate]
        (init_session default_progress)).tierOf = 3 ∧
    (3 : Nat) < 4 ∧
    hints_available true false false = [1] ∧
    tier_after_failures 2 = 2 ∧
    (1 : Nat) < 2 := by
  exact ⟨rfl, rfl, by decide, rfl, rfl, by decide⟩

/-- C2 amended: within one session starting at tier 0, under sequences
consisting only of failed validation attempts the tier equals
min(#failures, 3) — non-decreasing and never above the absolute cap 3 — but
it is not bounded by the level's authored hint count (a 1-hint level reaches
tier 2 after two failures), and explicit hint requests increment the tier
without bound, after which a failed attempt clamps it back down to 3, so the
tier is not monotone under arbitrary mixed action sequences. -/
theorem c2_fail_tier_closed_form (n k : Nat) :
    tier_after_failures n = min n 3 ∧
    tier_after_failures n ≤ tier_after_failures (n + k) ∧
    tier_after_failures n ≤ 3 ∧
    hints_available true false false = [1] ∧
    tier_after_failures 2 = 2 := by
  refine ⟨tier_after_failures_eq n, ?_, ?_, rfl, rfl⟩
  · rw [tier_after_failures_eq, tier_after_failures_eq]
    omega
  · rw [tier_after_failures_eq]
    omega

/-- C4 counterexample: on a level with two authored hints (`maxTiers = 2`)
and session tier already 2, a `RequestHint` action moves the stored tier to
3, not to min(2+1, 2) = 2 — the state does change even though the terminal
"all hints unlocked" response is shown. -/
theorem c4_counterexample :
    (request_hint (hints_available true true false) 2).fst = 3 ∧
    min (2 + 1) (hints_available true true false).length = 2 ∧
    (3 : Nat) ≠ 2 ∧
    (request_hint (hints_available true true false) 2).snd = HintDisplay.allUnlocked := by
  exact ⟨rfl, by decide, by decide, rfl⟩

/-- C4 amended: `RequestHint` always moves the session tier to `tier + 1`,
with no cap at the authored hint count; the display shows the newly reached
hint when `tier + 1` is within the authored range, the "no hints" message
when the level has no authored hints, and the terminal "all hints unlocked"
message when the tier is already at or past the authored count — but in that
terminal case the stored tier still increments. -/
theorem c4_request_hint_behaviour (h1 h2 h3 : Bool) (t : Nat) :
    (request_hint (hints_available h1 h2 h3) t).fst = t + 1 ∧
    ((hints_available h1 h2 h3).length = 0 →
      (request_hint (hints_available h1 h2 h3) t).snd = HintDisplay.noHints) ∧
    (t + 1 ≤ (hints_available h1 h2 h3).length →
      (request_hint (hints_available h1 h2 h3) t).snd =
        HintDisplay.hintText ((hints_available h1 h2 h3).getD t 0)) ∧
    ((hints_available h1 h2 h3).length ≠ 0 →
      (hints_available h1 h2 h3).length ≤ t →
      (request_hint (hints_available h1 h2 h3) t).snd = HintDisplay.allUnlocked) := by
  refine ⟨rfl, ?_, ?_, ?_⟩
  · intro h
    simp [request_hint, show_progressive_hints, h]
  · intro h
    have hne : ¬ (hints_available h1 h2 h3).length = 0 := by omega
    simp [request_hint, show_progressive_hints, hne, h]
  · intro hne hle
    have hgt : ¬ (t + 1 ≤ (hints_available h1 h2 h3).length) := by omega
    simp [request_hint, show_progressive_hints, hne, hgt]

/-- C4 witness: the amended theorem evaluated on a two-hint level, at tier 0
(shows hint 1) and at tier 5 (terminal response, tier still advances). -/
theorem c4_witness :
    (request_hint (hints_available true true false) 0).fst = 0 + 1 ∧
    (request_hint (hints_available true true false) 0).snd =
      HintDisplay.hintText ((hints_available true true false).getD 0 0) ∧
    (request_hint (hints_available true true false) 5).snd = HintDisplay.allUnlocked :=
  ⟨(c4_request_hint_behaviour true true false 0).1,
   (c4_request_hint_behaviour true true false 0).2.2.1 (by decide),
   (c4_request_hint_behaviour true true false 5).2.2.2 (by decide) (by decide)⟩

/-- Helper: if a level occurs at most once in `completed_levels`, then after
the success branch of `validate` it occurs exactly once. -/
theorem award_on_pass_count (p : PlayerProgress) (lvl : String) (xp : Nat)
    (h : p.completed_levels.count lvl ≤ 1) :
    (award_on_pass p lvl xp).completed_levels.count lvl = 1 := by
  by_cases hmem : lvl ∈ p.completed_levels
  · have heq : (award_on_pass p lvl xp).completed_levels = p.completed_levels := by
      simp [award_on_pass, hmem]
    rw [heq]
    have h1 : 0 < p.completed_levels.count lvl := List.count_pos_iff.mpr hmem
    omega
  · have heq : (award_on_pass p lvl xp).completed_levels =
        p.completed_levels ++ [lvl] := by
      simp [award_on_pass, hmem]
    rw [heq]
    have h0 : p.completed_levels.count lvl = 0 := List.count_eq_zero_of_not_mem hmem
    simp [h0]

/-- C5: a validation run with exit code 0 is reported as passed and resolves
the session as Passed with the persisted record equal to the in-memory one
and containing the level exactly once (given it contained it at most once
before); a non-zero exit code is reported as failed, leaves the session
interacting, and moves the hint tier to min(tier+1, 3) — an increment by
exactly one whenever the tier was below the cap 3. -/
theorem c5_validation_outcome (lvl : String) (xp : Nat) (hints : List Nat)
    (code : Nat) (tryAgain readyNext : Bool) (s : LoopState)
    (hcount : s.p.completed_levels.count lvl ≤ 1) :
    (validate_mission code = true ↔ code = 0) ∧
    (code = 0 → ∃ s' : LoopState,
        play_level_loop lvl xp hints [PInput.validate code tryAgain readyNext] s =
          LoopResult.ret Resolution.passed readyNext s' ∧
        s'.persisted = s'.p ∧
        s'.p.completed_levels.count lvl = 1) ∧
    (code ≠ 0 →
        validate_mission code = false ∧
        play_level_loop lvl xp hints [PInput.validate code true readyNext] s =
          LoopResult.pending
            { s with attempts := s.attempts + 1, tier := min (s.tier + 1) 3 } ∧
        (s.tier < 3 → min (s.tier + 1) 3 = s.tier + 1) ∧
        min (s.tier + 1) 3 ≤ 3) := by
  refine ⟨?_, ?_, ?_⟩
  · simp [validate_mission]
  · intro h0
    subst h0
    exact ⟨_, rfl, rfl, award_on_pass_count s.p lvl xp hcount⟩
  · intro hne
    have hvm : validate_mission code = false := by
      simp only [validate_mission, beq_eq_false_iff_ne, ne_eq]
      exact hne
    refine ⟨hvm, ?_, fun h3 => by omega, by omega⟩
    simp [play_level_loop, hvm]

/-- C5 witness: a fresh session on `level-1-pods`; exit code 0 resolves it as
Passed with the level persisted exactly once, and exit code 7 is reported as
failed. -/
theorem c5_witness :
    (∃ s' : LoopState,
        play_level_loop ("level-1-pods") 100 [1] [PInput.validate 0 true true]
            (init_session default_progress) =
          LoopResult.ret Resolution.passed true s' ∧
        s'.persisted = s'.p ∧
        s'.p.completed_levels.count ("level-1-pods") = 1) ∧
    validate_mission 7 = false := by
  constructor
  · exact (c5_validation_outcome ("level-1-pods") 100 [1] 0 true true
      (init_session default_progress) (by decide)).2.1 rfl
  · exact ((c5_validation_outcome ("level-1-pods") 100 [1] 7 true true
      (init_session default_progress) (by decide)).2.2 (by decide)).1

/-- Helper: the resume scan returns 0 when the stored level occurs nowhere
in the level list. -/
theorem resume_index_aux_not_mem (cur : String) (completed : List String) :
    ∀ (ls : List String) (i : Nat), cur ∉ ls →
      resume_index_aux cur completed ls i = 0 := by
  intro ls
  induction ls with
  | nil => intro i _; rfl
  | cons a as ih =>
      intro i h
      have ha : ¬ a = cur := by
        intro hac
        subst hac
        exact h (List.mem_cons_self a as)
      have has : cur ∉ as := fun hm => h (List.mem_cons_of_mem a hm)
      simp only [resume_index_aux, if_neg ha]
      exact ih (i + 1) has

/-- Helper: the resume scan on a list whose first occurrence of the stored
level sits after the block `pre` returns the absolute position of that
occurrence, plus one when the level is already completed. -/
theorem resume_index_aux_found (cur : String) (completed : List String) :
    ∀ (pre post : List String) (i : Nat), cur ∉ pre →
      resume_index_aux cur completed (pre ++ cur :: post) i =
        i + pre.length + (if cur ∈ completed then 1 else 0) := by
  intro pre
  induction pre with
  | nil =>
      intro post i _
      simp only [List.nil_append, resume_index_aux, if_pos rfl]
      split_ifs <;> simp
  | cons a as ih =>
      intro post i h
      have ha : ¬ a = cur := by
        intro hac
        subst hac
        exact h (List.mem_cons_self a as)
      have has : cur ∉ as := fun hm => h (List.mem_cons_of_mem a hm)
      simp only [List.cons_append, resume_index_aux, if_neg ha, List.append_eq]
      rw [ih post (i + 1) has]
      split_ifs <;> simp [List.length_cons] <;> omega

/-- C6: for a level list in which the stored `currentLevel` first occurs
right after the block `pre` (so at index `pre.length`), the resume index is
that index plus one when the level is completed and exactly that index when
it is not; and when the stored level occurs nowhere in the list the resume
index is 0 — no error is raised in any case. -/
theorem c6_resume_index (pre post completed : List String) (cur : String)
    (hpre : cur ∉ pre) :
    (cur ∈ completed →
      resume_start_index (pre ++ cur :: post) (some cur) completed =
        pre.length + 1) ∧
    (cur ∉ completed →
      resume_start_index (pre ++ cur :: post) (some cur) completed =
        pre.length) ∧
    (∀ levels : List String, cur ∉ levels →
      resume_start_index levels (some cur) completed = 0) := by
  refine ⟨?_, ?_, ?_⟩
  · intro hc
    show resume_index_aux cur completed (pre ++ cur :: post) 0 = pre.length + 1
    rw [resume_index_aux_found cur completed pre post 0 hpre]
    simp [hc]
  · intro hc
    show resume_index_aux cur completed (pre ++ cur :: post) 0 = pre.length
    rw [resume_index_aux_found cur completed pre post 0 hpre]
    simp [hc]
  · intro levels hl
    show resume_index_aux cur completed levels 0 = 0
    exact resume_index_aux_not_mem cur completed levels 0 hl

/-- C6 witness: in a naturally-ordered ten-level world where `level-7` is the
stored current level and already completed, the resume index is 7, which
selects `level-8` as the next session. -/
theorem c6_witness :
    resume_start_index levels_ten (some ("level-7")) ["level-7"] =
      ["level-1", "level-2", "level-3", "level-4", "level-5", "level-6"].length + 1 ∧
    levels_ten.getD
      (["level-1", "level-2", "level-3", "level-4", "level-5", "level-6"].length + 1)
      ("") = "level-8" := by
  constructor
  · exact (c6_resume_index
      ["level-1", "level-2", "level-3", "level-4", "level-5", "level-6"]
      ["level-8", "level-9", "level-10"] ["level-7"] ("level-7")
      (by decide)).1 (by decide)
  · decide

/-- Helper: any interrupted run ends with the handler's `sys.exit(0)`. -/
theorem interrupted_run_getLast (tr : List Effect) :
    (interrupted_run tr).getLast? = some (Effect.exitProc 0) := by
  unfold interrupted_run interrupt_handler_effects
  rw [List.getLast?_append_cons]
  rfl

/-- C7 counterexample: a `KeyboardInterrupt` delivered before `main()` has
performed any effect produces a run containing no save at all, only the
handler's farewell print and `sys.exit(0)` — the engine does not attempt a
final save before exiting 0. -/
theorem c7_counterexample :
    (interrupted_run []).filter Effect.isSave = [] ∧
    interrupted_run [] =
      [Effect.print ("Game interrupted. Progress saved!"), Effect.exitProc 0] := by
  exact ⟨rfl, rfl⟩

/-- C7 amended: on `KeyboardInterrupt` the engine does exit with status 0,
but the handler performs no save of its own — the saves in an interrupted run
are exactly those `main()` had already performed before the interrupt. -/
theorem c7_interrupt_saves_nothing (tr : List Effect) :
    (interrupted_run tr).filter Effect.isSave = tr.filter Effect.isSave ∧
    (interrupted_run tr).getLast? = some (Effect.exitProc 0) := by
  constructor
  · simp [interrupted_run, interrupt_handler_effects, List.filter_append,
      Effect.isSave]
  · exact interrupted_run_getLast tr

/-- Helper: which celebration strings occur in `milestone_events n`, as a
function of `n`. -/
theorem milestone_events_mem (n : Nat) :
    (("world_complete") ∈ milestone_events n ↔ n = 10) ∧
    (("halfway") ∈ milestone_events n ↔ n = 25) ∧
    (("final_boss") ∈ milestone_events n ↔ n = 49) ∧
    (("game_complete") ∈ milestone_events n ↔ n = 50) := by
  by_cases h1 : n = 10
  · subst h1
    exact ⟨by decide, by decide, by decide, by decide⟩
  by_cases h2 : n = 25
  · subst h2
    exact ⟨by decide, by decide, by decide, by decide⟩
  by_cases h3 : n = 49
  · subst h3
    exact ⟨by decide, by decide, by decide, by decide⟩
  by_cases h4 : n = 50
  · subst h4
    exact ⟨by decide, by decide, by decide, by decide⟩
  have he : milestone_events n = [] := by
    unfold milestone_events
    simp [h1, h2, h3, h4]
  rw [he]
  simp [h1, h2, h3, h4]

/-- Helper: the milestones fired by one successful validation are exactly
`milestone_events` of the post-completion completed-level count. -/
theorem pass_events_eq (p : PlayerProgress) (lvl : String) (xp : Nat) :
    pass_events p lvl xp =
      milestone_events ((award_on_pass p lvl xp).completed_levels.length) := rfl

/-- C9 counterexample: completing the tenth level fires `world_complete`
(count 9 to 10), but then re-completing an already-completed level — a
transition of the completed count from 10 to 10, which crosses no
threshold — fires `world_complete` a second time: the code keys celebrations
on the post-count alone, not on a pre/post crossing. -/
theorem c9_counterexample :
    nine_done.completed_levels.length = 9 ∧
    pass_events nine_done ("l10") 100 = ["world_complete"] ∧
    (award_on_pass nine_done ("l10") 100).completed_levels.length = 10 ∧
    pass_events (award_on_pass nine_done ("l10") 100) ("l1") 100 =
      ["world_complete"] ∧
    (award_on_pass (award_on_pass nine_done ("l10") 100) ("l1") 100).completed_levels.length = 10 := by
  exact ⟨rfl, rfl, rfl, rfl, rfl⟩

/-- C9 amended: each milestone celebration fires on a successful validation
exactly when the post-completion size of `completedLevels` equals its
threshold (10, 25, 49, 50) — so a 9-to-10 transition fires `world_complete`
once and a 10-to-11 transition does not refire it, but a resolution that
leaves the count at a threshold (re-completing an already-completed level)
fires the celebration again; detection uses only the post-count, not a
pre/post crossing. -/
theorem c9_milestones_post_count_only (p : PlayerProgress) (lvl : String) (xp : Nat) :
    (("world_complete") ∈ pass_events p lvl xp ↔
      (award_on_pass p lvl xp).completed_levels.length = 10) ∧
    (("halfway") ∈ pass_events p lvl xp ↔
      (award_on_pass p lvl xp).completed_levels.length = 25) ∧
    (("final_boss") ∈ pass_events p lvl xp ↔
      (award_on_pass p lvl xp).completed_levels.length = 49) ∧
    (("game_complete") ∈ pass_events p lvl xp ↔
      (award_on_pass p lvl xp).completed_levels.length = 50) := by
  rw [pass_events_eq]
  exact milestone_events_mem _

/-- Helper: the success branch of `validate` never touches the position
fields of the progress record. -/
theorem award_on_pass_preserves (p : PlayerProgress) (lvl : String) (xp : Nat) :
    (award_on_pass p lvl xp).current_level = p.current_level ∧
    (award_on_pass p lvl xp).current_world = p.current_world := by
  by_cases hmem : lvl ∈ p.completed_levels
  · simp [award_on_pass, hmem]
  · simp [award_on_pass, hmem]

/-- Helper: the only `sys.exit` in the session loop is the quit action's
`sys.exit(0)`, so an exited session always carries exit code 0. -/
theorem play_level_loop_exit_code (lvl : String) (xp : Nat) (hints : List Nat) :
    ∀ (inputs : List PInput) (s : LoopState) (c : Nat) (s' : LoopState),
      play_level_loop lvl xp hints inputs s = LoopResult.exited c s' → c = 0 := by
  intro inputs
  induction inputs with
  | nil =>
      intro s c s' h
      simp [play_level_loop] at h
  | cons i rest ih =>
      intro s c s' h
      cases i with
      | check => exact ih _ _ _ h
      | guide => exact ih _ _ _ h
      | solution => exact ih _ _ _ h
      | hints => exact ih _ _ _ h
      | validate code tA ready =>
          simp only [play_level_loop] at h
          by_cases hv : validate_mission code = true
          · rw [if_pos hv] at h
            simp at h
          · rw [if_neg hv] at h
            by_cases ht : tA = true
            · rw [if_pos ht] at h
              exact ih _ _ _ h
            · rw [if_neg ht] at h
              simp at h
      | skip conf =>
          simp only [play_level_loop] at h
          by_cases hc : conf = true
          · rw [if_pos hc] at h
            simp at h
          · rw [if_neg hc] at h
            exact ih _ _ _ h
      | quit =>
          simp only [play_level_loop] at h
          injection h with h1 h2
          exact h1.symm

/-- Helper: nothing in a level session changes `current_level` or
`current_world`: the in-memory and the persisted record coming out of the
loop keep the position the session was started with (the only persisted
update, on a pass, goes through `award_on_pass`, which preserves both
fields). -/
theorem play_level_loop_preserves_position (lvl : String) (xp : Nat) (hints : List Nat) :
    ∀ (inputs : List PInput) (s : LoopState),
      s.persisted.current_level = s.p.current_level →
      s.persisted.current_world = s.p.current_world →
      ((play_level_loop lvl xp hints inputs s).stateOf.p.current_level =
          s.p.current_level ∧
       (play_level_loop lvl xp hints inputs s).stateOf.p.current_world =
          s.p.current_world ∧
       (play_level_loop lvl xp hints inputs s).stateOf.persisted.current_level =
          s.p.current_level ∧
       (play_level_loop lvl xp hints inputs s).stateOf.persisted.current_world =
          s.p.current_world) := by
  intro inputs
  induction inputs with
  | nil =>
      intro s h1 h2
      exact ⟨rfl, rfl, h1, h2⟩
  | cons i rest ih =>
      intro s h1 h2
      cases i with
      | check => exact ih s h1 h2
      | guide => exact ih s h1 h2
      | solution => exact ih s h1 h2
      | hints => exact ih { s with tier := (request_hint hints s.tier).fst } h1 h2
      | validate code tA ready =>
          by_cases hv : validate_mission code = true
          · simp only [play_level_loop, if_pos hv, LoopResult.stateOf]
            have hp := award_on_pass_preserves s.p lvl xp
            exact ⟨hp.1, hp.2, hp.1, hp.2⟩
          · by_cases ht : tA = true
            · simp only [play_level_loop, if_neg hv, if_pos ht]
              exact ih { s with attempts := s.attempts + 1, tier := min (s.tier + 1) 3 } h1 h2
            · simp only [play_level_loop, if_neg hv, if_neg ht, LoopResult.stateOf]
              refine ⟨?_, ?_, ?_, ?_⟩ <;> first | exact h1 | exact h2 | trivial
      | skip conf =>
          by_cases hc : conf = true
          · simp only [play_level_loop, if_pos hc, LoopResult.stateOf]
            refine ⟨?_, ?_, ?_, ?_⟩ <;> first | exact h1 | exact h2 | trivial
          · simp only [play_level_loop, if_neg hc]
            exact ih s h1 h2
      | quit => exact ⟨rfl, rfl, h1, h2⟩

/-- Helper: if the world runner terminates via `sys.exit` raised inside a
session, the exit code is 0 and both the in-memory and the persisted record
point at the level of that session, which belongs to the remaining level
list. -/
theorem play_world_from_quit (world : String) (xp_of : String → Nat)
    (hints_of : String → List Nat) :
    ∀ (lvls : List String) (scripts : List (List PInput)) (p pers : PlayerProgress)
      (code : Nat) (p' pers' : PlayerProgress),
      play_world_from world xp_of hints_of lvls scripts p pers =
        WorldResult.exitedGame code p' pers' →
      code = 0 ∧ pers'.current_level = p'.current_level ∧
      pers'.current_world = p'.current_world ∧ pers'.current_world = world ∧
      ∃ l, l ∈ lvls ∧ pers'.current_level = some l := by
  intro lvls
  induction lvls with
  | nil =>
      intro scripts p pers code p' pers' h
      simp [play_world_from] at h
  | cons lvl rest ih =>
      intro scripts p pers code p' pers' h
      simp only [play_world_from] at h
      cases hres : play_level_loop lvl (xp_of lvl) (hints_of lvl) (scripts.headD [])
          (init_session { p with current_level := some lvl, current_world := world }) with
      | ret res cont s =>
          cases cont with
          | true =>
              rw [hres] at h
              dsimp only at h
              obtain ⟨h0, ha, hb, hc, l, hl, hcl⟩ :=
                ih scripts.tail s.p s.persisted code p' pers' h
              exact ⟨h0, ha, hb, hc, l, List.mem_cons_of_mem lvl hl, hcl⟩
          | false =>
              rw [hres] at h
              simp at h
      | exited c s =>
          rw [hres] at h
          dsimp only at h
          injection h with hc1 hp1 hpers1
          have hzero : c = 0 :=
            play_level_loop_exit_code lvl (xp_of lvl) (hints_of lvl)
              (scripts.headD []) _ c s hres
          have hpre := play_level_loop_preserves_position lvl (xp_of lvl) (hints_of lvl)
            (scripts.headD [])
            (init_session { p with current_level := some lvl, current_world := world })
            rfl rfl
          rw [hres] at hpre
          dsimp only [LoopResult.stateOf, init_session] at hpre
          obtain ⟨hq1, hq2, hq3, hq4⟩ := hpre
          subst hp1
          subst hpers1
          subst hc1
          exact ⟨hzero, hq3.trans hq1.symm, hq4.trans hq2.symm, hq4,
            lvl, List.mem_cons_self lvl rest, hq3⟩
      | pending s =>
          rw [hres] at h
          simp at h

/-- C8: whenever the campaign terminates through the quit action inside a
level session, the process exit status is 0 and the persisted record's
`currentLevel`/`currentWorld` agree with the in-memory record at the moment
of quitting, name the world being played, and point at one of that world's
levels — the position was persisted no later than quitting (it is written at
session start and never changed by the session). -/
theorem c8_quit_persists_position (world : String) (xp_of : String → Nat)
    (hints_of : String → List Nat) (levels : List String)
    (scripts : List (List PInput)) (p pers : PlayerProgress)
    (code : Nat) (p' pers' : PlayerProgress)
    (h : play_world world xp_of hints_of levels scripts p pers =
        WorldResult.exitedGame code p' pers') :
    code = 0 ∧ pers'.current_level = p'.current_level ∧
    pers'.current_world = p'.current_world ∧ pers'.current_world = world ∧
    ∃ l, l ∈ levels ∧ pers'.current_level = some l := by
  unfold play_world at h
  obtain ⟨h0, h1, h2, h3, l, hl, hcl⟩ :=
    play_world_from_quit world xp_of hints_of _ scripts p pers code p' pers' h
  exact ⟨h0, h1, h2, h3, l, List.mem_of_mem_drop hl, hcl⟩

/-- C8 witness: quitting immediately in the first session of a fresh
campaign on a one-level world exits with code 0 and leaves
`level-1-pods`/`world-1-basics` persisted. -/
theorem c8_witness :
    (0 : Nat) = 0 ∧
    quit_session_progress.current_level = quit_session_progress.current_level ∧
    quit_session_progress.current_world = quit_session_progress.current_world ∧
    quit_session_progress.current_world = "world-1-basics" ∧
    ∃ l, l ∈ ["level-1-pods"] ∧ quit_session_progress.current_level = some l :=
  c8_quit_persists_position ("world-1-basics") (fun _ => 100) (fun _ => [1])
    ["level-1-pods"] [[PInput.quit]] default_progress default_progress
    0 quit_session_progress quit_session_progress (by rfl)
